import Mathlib

/-!
Verification of the ARKA examples compliance decision engine.

This file gives a shallow embedding of the two rule evaluators of the
repository and proves the specified invariants about them:

* `evaluateLoanDirectly` and `generateSummary` from
  `src/loan-domain/scripts/run-loan-simulations.ts`;
* `evaluateTransaction` from
  `src/aml-domain/scripts/run-aml-simulations.ts`.

JavaScript numbers are modelled as rationals, JavaScript arrays as lists,
and the sequence of conditional `push` calls of the source as concatenation
of conditional singleton lists (`guardList`).  Presentation-only fields of
the source records (interpolated message strings, timestamps, wall-clock
processing times) are omitted; every field a claim quantifies over is kept.
-/

/-- Decision kinds, `'ALLOW' | 'DENY' | 'ALLOW_WITH_FLAGS'` in the source. -/
inductive Decision where
  | ALLOW
  | DENY
  | ALLOW_WITH_FLAGS
deriving DecidableEq, Repr

/-- A conditional push: `if c { xs.push(a) }` contributes `guardList c a`
to the final array.  Truth of `c` is a `Bool`, matching the source tests. -/
def guardList {α : Type} (c : Bool) (a : α) : List α :=
  if c then [a] else []

/-- First-occurrence deduplication with a seen-accumulator; this is how the
JavaScript `new Set(flags)` iteration builds its contents. -/
def dedupeFirstAux (seen : List String) : List String → List String
  | [] => []
  | x :: xs => if x ∈ seen then dedupeFirstAux seen xs else x :: dedupeFirstAux (x :: seen) xs

/-- `[...new Set(flags)]` of the source: keeps the first occurrence of each
element, in order. -/
def dedupeFirst (l : List String) : List String :=
  dedupeFirstAux [] l

/-- `str.toUpperCase()` of the source, as a structural character map
(ASCII case mapping, which covers every string the evaluator compares). -/
def strToUpper (s : String) : String :=
  ⟨s.data.map Char.toUpper⟩

/-- `str.toLowerCase()` of the source, as a structural character map. -/
def strToLower (s : String) : String :=
  ⟨s.data.map Char.toLower⟩

/-! ## Loan domain data model (`run-loan-simulations.ts`, lines 22-94) -/

/-- `LoanData` interface, lines 22-32.  Optional fields are `Option`. -/
structure LoanData where
  apr : ℚ
  principal : ℚ
  amount : Option ℚ
  termMonths : ℚ
  purpose : String
  productType : String
  isSecured : Bool
  isRefinance : Bool
  originalLoanId : Option String
deriving DecidableEq, Repr

/-- `BorrowerData` interface, lines 34-50. -/
structure BorrowerData where
  borrowerId : String
  creditScore : ℚ
  income : ℚ
  employmentStatus : String
  debtToIncomeRatio : ℚ
  riskBand : String
  region : String
  state : String
  isFirstTimeBorrower : Bool
  previousLoanCount : ℚ
  delinquencyHistory : String
  delinquenciesLast24Months : ℚ
  yearsEmployed : Option ℚ
  hasCosigner : Option Bool
  cosignerCreditScore : Option ℚ
deriving DecidableEq, Repr

/-- `LenderData` interface, lines 52-58. -/
structure LenderData where
  id : String
  name : String
  licenseNumber : Option String
  state : Option String
  isBank : Option Bool
deriving DecidableEq, Repr

/-- The `flags?: Record<string, boolean>` payload of a loan application;
only the `isMilitary` key is ever read (line 196).  An absent record or key
reads as `false`, as `payload.flags?.isMilitary` does. -/
structure LoanFlags where
  isMilitary : Bool
deriving DecidableEq, Repr

/-- `LoanApplication` interface, lines 60-70 (presentation-only
`description`, `expectedOutcome` and `riskIndicators` omitted). -/
structure LoanApplication where
  id : String
  jurisdiction : String
  loan : LoanData
  borrower : BorrowerData
  lender : LenderData
  flagsMap : LoanFlags
deriving DecidableEq, Repr

/-- `RuleEvaluation` interface, lines 77-84 (the interpolated `message`
string is presentation-only and omitted; every push in the evaluator sets
`matched`, `decision` and `code`, so they are not optional here). -/
structure RuleEvaluation where
  ruleId : String
  ruleName : String
  matched : Bool
  decision : Decision
  code : String
deriving DecidableEq, Repr

/-- Loan `SimulationResult` interface, lines 86-94 (`processingTimeMs` is
wall-clock time and omitted). -/
structure LoanSimulationResult where
  loanId : String
  jurisdiction : String
  decision : Decision
  flags : List String
  rulesTriggered : List RuleEvaluation
  riskScore : Option ℚ
deriving DecidableEq, Repr

/-! ## Loan deny tier (`evaluateLoanDirectly`, lines 129-235) -/

/-- One entry of the `aprCaps` table, lines 130-136, together with the rule
id the template string `loans-(jurisdiction.toLowerCase().replace('-',''))-apr-cap`
evaluates to for that key. -/
structure AprCapRule where
  cap : ℚ
  code : String
  name : String
  ruleId : String
deriving DecidableEq, Repr

/-- The `aprCaps` record lookup, lines 130-139. -/
def aprCaps (jurisdiction : String) : Option AprCapRule :=
  if jurisdiction = "US-CA" then some ⟨mkRat 36 100, "CA_APR_EXCEEDED", "California APR Cap", "loans-usca-apr-cap"⟩
  else if jurisdiction = "US-NY" then some ⟨mkRat 25 100, "NY_APR_EXCEEDED", "New York APR Cap", "loans-usny-apr-cap"⟩
  else if jurisdiction = "US-TX" then some ⟨mkRat 18 100, "TX_APR_EXCEEDED", "Texas APR Cap", "loans-ustx-apr-cap"⟩
  else if jurisdiction = "US-CT" then some ⟨mkRat 12 100, "CT_APR_EXCEEDED", "Connecticut APR Cap", "loans-usct-apr-cap"⟩
  else if jurisdiction = "US-AR" then some ⟨mkRat 17 100, "AR_APR_EXCEEDED", "Arkansas APR Cap", "loans-usar-apr-cap"⟩
  else none

/-- Guard of the APR-cap deny rule, line 140. -/
def aprDenyCheck (l : LoanApplication) : Bool :=
  match aprCaps l.jurisdiction with
  | some r => decide (r.cap < l.loan.apr)
  | none => false

/-- `payload.loan.principal || payload.loan.amount || 0`, lines 330 and 397:
a zero (falsy) principal falls through to `amount`, then to `0`. -/
def effectivePrincipal (l : LoanApplication) : ℚ :=
  if l.loan.principal ≠ 0 then l.loan.principal else (l.loan.amount.getD 0)

/-- Guard of the deep-subprime deny rule, line 154. -/
def deepSubprimeCheck (l : LoanApplication) : Bool :=
  decide (l.borrower.creditScore < 500)

/-- Guard of the excessive-DTI deny rule, line 168. -/
def excessiveDtiCheck (l : LoanApplication) : Bool :=
  decide (mkRat 60 100 < l.borrower.debtToIncomeRatio)

/-- Guard of the severe-delinquency deny rule, line 182. -/
def severeDelinquencyCheck (l : LoanApplication) : Bool :=
  decide (l.borrower.delinquencyHistory = "BANKRUPTCY") ||
    decide (l.borrower.delinquencyHistory = "CHARGED_OFF")

/-- Guard of the Military Lending Act deny rule, line 196. -/
def mlaCheck (l : LoanApplication) : Bool :=
  l.flagsMap.isMilitary && decide (mkRat 36 100 < l.loan.apr)

/-- Guard of the unemployed-without-cosigner deny rule, line 210:
`!payload.borrower.hasCosigner` is true when the field is absent or false. -/
def unemployedCheck (l : LoanApplication) : Bool :=
  decide (l.borrower.employmentStatus = "UNEMPLOYED") && !(l.borrower.hasCosigner.getD false)

/-- Guard of the payday-to-subprime deny rule, line 224. -/
def paydaySubprimeCheck (l : LoanApplication) : Bool :=
  decide (l.loan.productType = "PAYDAY") &&
    (decide (l.borrower.riskBand = "SUBPRIME") || decide (l.borrower.riskBand = "DEEP_SUBPRIME"))

/-- `finalDecision` equals `'DENY'` after the deny section, lines 129-235,
exactly when one of the seven deny guards fired. -/
def denyCondLoan (l : LoanApplication) : Bool :=
  aprDenyCheck l || deepSubprimeCheck l || excessiveDtiCheck l || severeDelinquencyCheck l ||
    mlaCheck l || unemployedCheck l || paydaySubprimeCheck l

/-- The `rulesTriggered.push` calls of the deny section, in source order. -/
def loanDenyMatches (l : LoanApplication) : List RuleEvaluation :=
  (match aprCaps l.jurisdiction with
    | some r => guardList (decide (r.cap < l.loan.apr))
        { ruleId := r.ruleId, ruleName := r.name, matched := true, decision := .DENY, code := r.code }
    | none => []) ++
  (guardList (deepSubprimeCheck l)
    { ruleId := "loans-deep-subprime-denial", ruleName := "Deep Subprime Credit Denial",
      matched := true, decision := .DENY, code := "DEEP_SUBPRIME_CREDIT" } ++
  (guardList (excessiveDtiCheck l)
    { ruleId := "loans-high-dti-denial", ruleName := "Excessive DTI Denial",
      matched := true, decision := .DENY, code := "EXCESSIVE_DTI" } ++
  (guardList (severeDelinquencyCheck l)
    { ruleId := "loans-repeat-delinquent-denial", ruleName := "Repeat Delinquent Denial",
      matched := true, decision := .DENY, code := "SEVERE_DELINQUENCY_HISTORY" } ++
  (guardList (mlaCheck l)
    { ruleId := "loans-mla-apr-cap", ruleName := "Military Lending Act APR Cap",
      matched := true, decision := .DENY, code := "MLA_VIOLATION" } ++
  (guardList (unemployedCheck l)
    { ruleId := "loans-unemployed-denial", ruleName := "Unemployed Borrower Denial",
      matched := true, decision := .DENY, code := "UNEMPLOYED_NO_COSIGNER" } ++
  guardList (paydaySubprimeCheck l)
    { ruleId := "loans-payday-subprime-denial", ruleName := "Payday Loan to Subprime Denial",
      matched := true, decision := .DENY, code := "PAYDAY_SUBPRIME_DENIAL" })))))

/-- The `flags.push` calls of the deny section, in source order. -/
def loanDenyFlags (l : LoanApplication) : List String :=
  (match aprCaps l.jurisdiction with
    | some r => guardList (decide (r.cap < l.loan.apr)) r.code
    | none => []) ++
  (guardList (deepSubprimeCheck l) "DEEP_SUBPRIME_CREDIT" ++
  (guardList (excessiveDtiCheck l) "EXCESSIVE_DTI" ++
  (guardList (severeDelinquencyCheck l) "SEVERE_DELINQUENCY_HISTORY" ++
  (guardList (mlaCheck l) "MLA_VIOLATION" ++
  (guardList (unemployedCheck l) "UNEMPLOYED_NO_COSIGNER" ++
  guardList (paydaySubprimeCheck l) "PAYDAY_SUBPRIME_DENIAL")))))

/-! ## Loan flag tier (`evaluateLoanDirectly`, lines 238-448); the whole
block is guarded by `finalDecision !== 'DENY'`. -/

/-- Guard of the subprime-credit flag, line 240. -/
def subprimeFlagCheck (l : LoanApplication) : Bool :=
  decide (500 ≤ l.borrower.creditScore) && decide (l.borrower.creditScore < 580)

/-- Guard of the near-prime flag, line 253. -/
def nearPrimeFlagCheck (l : LoanApplication) : Bool :=
  decide (580 ≤ l.borrower.creditScore) && decide (l.borrower.creditScore < 670)

/-- Guard of the high-DTI flag, line 266. -/
def highDtiFlagCheck (l : LoanApplication) : Bool :=
  decide (mkRat 43 100 < l.borrower.debtToIncomeRatio) && decide (l.borrower.debtToIncomeRatio ≤ mkRat 60 100)

/-- Guard of the shadow APR risk flag, line 279. -/
def shadowAprFlagCheck (l : LoanApplication) : Bool :=
  decide (mkRat 32 100 ≤ l.loan.apr) && decide (l.loan.apr ≤ mkRat 36 100)

/-- Guard of the shadow DTI risk flag, line 292. -/
def shadowDtiFlagCheck (l : LoanApplication) : Bool :=
  decide (mkRat 40 100 ≤ l.borrower.debtToIncomeRatio) && decide (l.borrower.debtToIncomeRatio ≤ mkRat 43 100)

/-- Guard of the shadow credit risk flag, line 305. -/
def shadowCreditFlagCheck (l : LoanApplication) : Bool :=
  decide (580 ≤ l.borrower.creditScore) && decide (l.borrower.creditScore < 600)

/-- Guard of the first-time-borrower low-credit flag, lines 318-319. -/
def firstTimeLowCreditCheck (l : LoanApplication) : Bool :=
  l.borrower.isFirstTimeBorrower && decide (l.borrower.creditScore < 650)

/-- Guard of the first-time-borrower high-amount flag, lines 318, 330-331. -/
def firstTimeHighAmountCheck (l : LoanApplication) : Bool :=
  l.borrower.isFirstTimeBorrower && decide (50000 < effectivePrincipal l)

/-- Guard of the recent-delinquency flag, line 345. -/
def recentDelinquencyCheck (l : LoanApplication) : Bool :=
  decide (l.borrower.delinquencyHistory = "PAST_90") ||
    decide (l.borrower.delinquencyHistory = "PAST_120")

/-- Guard of the multiple-delinquencies flag, line 358. -/
def multipleDelinquenciesCheck (l : LoanApplication) : Bool :=
  decide (3 ≤ l.borrower.delinquenciesLast24Months)

/-- Guard of the high-risk-combination flag, line 371. -/
def highRiskComboCheck (l : LoanApplication) : Bool :=
  decide (mkRat 25 100 < l.loan.apr) && decide (48 < l.loan.termMonths) &&
    decide (l.borrower.creditScore < 620)

/-- Guard of the predatory-pattern flag, line 384. -/
def predatoryPatternCheck (l : LoanApplication) : Bool :=
  decide (mkRat 28 100 < l.loan.apr) && !l.loan.isSecured && decide (mkRat 45 100 < l.borrower.debtToIncomeRatio)

/-- Guard of the large-loan-review flag, lines 397-398. -/
def largeLoanCheck (l : LoanApplication) : Bool :=
  decide (100000 < effectivePrincipal l)

/-- Guard of the jumbo-loan flag, line 411. -/
def jumboLoanCheck (l : LoanApplication) : Bool :=
  decide (726200 < effectivePrincipal l)

/-- Guard of the payday-scrutiny flag, line 424. -/
def paydayScrutinyCheck (l : LoanApplication) : Bool :=
  decide (l.loan.productType = "PAYDAY")

/-- Guard of the student-borrower flag, line 437. -/
def studentBorrowerCheck (l : LoanApplication) : Bool :=
  decide (l.borrower.employmentStatus = "STUDENT")

/-- `finalDecision` ends as `'ALLOW_WITH_FLAGS'` on the non-deny path
exactly when one of the sixteen flag guards fired (each of them assigns
`finalDecision = 'ALLOW_WITH_FLAGS'`). -/
def flagCondLoan (l : LoanApplication) : Bool :=
  subprimeFlagCheck l || nearPrimeFlagCheck l || highDtiFlagCheck l || shadowAprFlagCheck l ||
    shadowDtiFlagCheck l || shadowCreditFlagCheck l || firstTimeLowCreditCheck l ||
    firstTimeHighAmountCheck l || recentDelinquencyCheck l || multipleDelinquenciesCheck l ||
    highRiskComboCheck l || predatoryPatternCheck l || largeLoanCheck l || jumboLoanCheck l ||
    paydayScrutinyCheck l || studentBorrowerCheck l

/-- The `flags.push` calls of the flag section, in source order. -/
def loanFlagFlags (l : LoanApplication) : List String :=
  guardList (subprimeFlagCheck l) "SUBPRIME_CREDIT" ++
  (guardList (nearPrimeFlagCheck l) "NEAR_PRIME_CREDIT" ++
  (guardList (highDtiFlagCheck l) "HIGH_DTI" ++
  (guardList (shadowAprFlagCheck l) "SHADOW_APR_RISK" ++
  (guardList (shadowDtiFlagCheck l) "SHADOW_DTI_RISK" ++
  (guardList (shadowCreditFlagCheck l) "SHADOW_CREDIT_RISK" ++
  (guardList (firstTimeLowCreditCheck l) "FIRST_TIME_LOW_CREDIT" ++
  (guardList (firstTimeHighAmountCheck l) "FIRST_TIME_HIGH_AMOUNT" ++
  (guardList (recentDelinquencyCheck l) "RECENT_DELINQUENCY" ++
  (guardList (multipleDelinquenciesCheck l) "MULTIPLE_DELINQUENCIES" ++
  (guardList (highRiskComboCheck l) "HIGH_RISK_COMBINATION" ++
  (guardList (predatoryPatternCheck l) "PREDATORY_PATTERN" ++
  (guardList (largeLoanCheck l) "LARGE_LOAN_REVIEW" ++
  (guardList (jumboLoanCheck l) "JUMBO_LOAN" ++
  (guardList (paydayScrutinyCheck l) "PAYDAY_LOAN_SCRUTINY" ++
  guardList (studentBorrowerCheck l) "STUDENT_BORROWER"))))))))))))))

/-- The `rulesTriggered.push` calls of the flag section, in source order. -/
def loanFlagMatches (l : LoanApplication) : List RuleEvaluation :=
  guardList (subprimeFlagCheck l)
    { ruleId := "loans-subprime-flag", ruleName := "Subprime Credit Score",
      matched := true, decision := .ALLOW_WITH_FLAGS, code := "SUBPRIME_CREDIT" } ++
  (guardList (nearPrimeFlagCheck l)
    { ruleId := "loans-near-prime-flag", ruleName := "Near-Prime Credit Score",
      matched := true, decision := .ALLOW_WITH_FLAGS, code := "NEAR_PRIME_CREDIT" } ++
  (guardList (highDtiFlagCheck l)
    { ruleId := "loans-qm-dti-flag", ruleName := "QM DTI Threshold Flag",
      matched := true, decision := .ALLOW_WITH_FLAGS, code := "HIGH_DTI" } ++
  (guardList (shadowAprFlagCheck l)
    { ruleId := "loans-shadow-apr-risk", ruleName := "Shadow APR Risk Detection",
      matched := true, decision := .ALLOW_WITH_FLAGS, code := "SHADOW_APR_RISK" } ++
  (guardList (shadowDtiFlagCheck l)
    { ruleId := "loans-shadow-dti-risk", ruleName := "Shadow DTI Risk Detection",
      matched := true, decision := .ALLOW_WITH_FLAGS, code := "SHADOW_DTI_RISK" } ++
  (guardList (shadowCreditFlagCheck l)
    { ruleId := "loans-shadow-credit-risk", ruleName := "Shadow Credit Score Risk",
      matched := true, decision := .ALLOW_WITH_FLAGS, code := "SHADOW_CREDIT_RISK" } ++
  (guardList (firstTimeLowCreditCheck l)
    { ruleId := "loans-first-time-low-credit", ruleName := "First-Time Borrower Low Credit",
      matched := true, decision := .ALLOW_WITH_FLAGS, code := "FIRST_TIME_LOW_CREDIT" } ++
  (guardList (firstTimeHighAmountCheck l)
    { ruleId := "loans-first-time-high-amount", ruleName := "First-Time Borrower High Amount",
      matched := true, decision := .ALLOW_WITH_FLAGS, code := "FIRST_TIME_HIGH_AMOUNT" } ++
  (guardList (recentDelinquencyCheck l)
    { ruleId := "loans-recent-delinquency-flag", ruleName := "Recent Delinquency Flag",
      matched := true, decision := .ALLOW_WITH_FLAGS, code := "RECENT_DELINQUENCY" } ++
  (guardList (multipleDelinquenciesCheck l)
    { ruleId := "loans-multiple-delinquencies", ruleName := "Multiple Recent Delinquencies",
      matched := true, decision := .ALLOW_WITH_FLAGS, code := "MULTIPLE_DELINQUENCIES" } ++
  (guardList (highRiskComboCheck l)
    { ruleId := "loans-high-risk-combo", ruleName := "High Risk Loan Detection",
      matched := true, decision := .ALLOW_WITH_FLAGS, code := "HIGH_RISK_COMBINATION" } ++
  (guardList (predatoryPatternCheck l)
    { ruleId := "loans-predatory-pattern", ruleName := "Potential Predatory Lending Pattern",
      matched := true, decision := .ALLOW_WITH_FLAGS, code := "PREDATORY_PATTERN" } ++
  (guardList (largeLoanCheck l)
    { ruleId := "loans-large-loan-review", ruleName := "Large Loan Review",
      matched := true, decision := .ALLOW_WITH_FLAGS, code := "LARGE_LOAN_REVIEW" } ++
  (guardList (jumboLoanCheck l)
    { ruleId := "loans-jumbo-loan-review", ruleName := "Jumbo Loan Review",
      matched := true, decision := .ALLOW_WITH_FLAGS, code := "JUMBO_LOAN" } ++
  (guardList (paydayScrutinyCheck l)
    { ruleId := "loans-payday-scrutiny", ruleName := "Payday Loan Enhanced Scrutiny",
      matched := true, decision := .ALLOW_WITH_FLAGS, code := "PAYDAY_LOAN_SCRUTINY" } ++
  guardList (studentBorrowerCheck l)
    { ruleId := "loans-student-borrower-flag", ruleName := "Student Borrower Enhanced Review",
      matched := true, decision := .ALLOW_WITH_FLAGS, code := "STUDENT_BORROWER" }))))))))))))))

/-! ## Risk score (`evaluateLoanDirectly`, lines 450-463) -/

/-- The sequential risk-score computation of lines 450-463: base 50, three
mutually exclusive if/else chains plus the delinquency and APR additions,
then `Math.max(0, Math.min(100, riskScore))`. -/
def computeRiskScore (l : LoanApplication) : ℚ :=
  let r0 : ℚ := 50
  let r1 :=
    if l.borrower.creditScore < 580 then r0 + 20
    else if l.borrower.creditScore < 670 then r0 + 10
    else if 740 ≤ l.borrower.creditScore then r0 - 15
    else r0
  let r2 :=
    if mkRat 50 100 < l.borrower.debtToIncomeRatio then r1 + 15
    else if mkRat 43 100 < l.borrower.debtToIncomeRatio then r1 + 8
    else if l.borrower.debtToIncomeRatio < mkRat 30 100 then r1 - 10
    else r1
  let r3 :=
    if 0 < l.borrower.delinquenciesLast24Months then
      r2 + l.borrower.delinquenciesLast24Months * 5
    else r2
  let r4 := if mkRat 30 100 < l.loan.apr then r3 + 10 else r3
  max 0 (min 100 r4)

/-! ## The loan evaluator itself (`evaluateLoanDirectly`, lines 116-474) -/

/-- `evaluateLoanDirectly`, lines 116-474.  The mutable `flags` and
`rulesTriggered` arrays become the concatenation of the deny-section pushes
with the flag-section pushes (the latter only on the non-deny path), the
mutable `finalDecision` becomes the corresponding conditional, and the
returned flags are deduplicated exactly as `[...new Set(flags)]` is. -/
def evaluateLoanDirectly (l : LoanApplication) : LoanSimulationResult :=
  let rawFlags := loanDenyFlags l ++ (if denyCondLoan l then [] else loanFlagFlags l)
  let rules := loanDenyMatches l ++ (if denyCondLoan l then [] else loanFlagMatches l)
  let finalDecision :=
    if denyCondLoan l then Decision.DENY
    else if flagCondLoan l then Decision.ALLOW_WITH_FLAGS
    else Decision.ALLOW
  { loanId := l.id
    jurisdiction := l.jurisdiction
    decision := finalDecision
    flags := dedupeFirst rawFlags
    rulesTriggered := rules
    riskScore := some (computeRiskScore l) }

/-! ## Risk score band deltas.  The four signed deltas that the sequential
code of lines 450-463 adds to the base score of 50, read off band by band;
claim C4 relates `computeRiskScore` to their sum. -/

/-- Credit-score band delta, lines 452-454. -/
def creditScoreDelta (cs : ℚ) : ℚ :=
  if cs < 580 then 20 else if cs < 670 then 10 else if 740 ≤ cs then -15 else 0

/-- Debt-to-income band delta, lines 456-458. -/
def dtiDelta (dti : ℚ) : ℚ :=
  if mkRat 50 100 < dti then 15 else if mkRat 43 100 < dti then 8 else if dti < mkRat 30 100 then -10 else 0

/-- Delinquency-count delta (count times per-unit weight 5), line 460. -/
def delinquencyDelta (d : ℚ) : ℚ :=
  if 0 < d then d * 5 else 0

/-- Rate-premium delta, line 461. -/
def aprDelta (apr : ℚ) : ℚ :=
  if mkRat 30 100 < apr then 10 else 0

/-- The list of the four signed band deltas of a loan application. -/
def riskDeltas (l : LoanApplication) : List ℚ :=
  [creditScoreDelta l.borrower.creditScore,
   dtiDelta l.borrower.debtToIncomeRatio,
   delinquencyDelta l.borrower.delinquenciesLast24Months,
   aprDelta l.loan.apr]

/-- `Math.max(0, Math.min(100, x))`, line 463. -/
def clampScore (x : ℚ) : ℚ :=
  max 0 (min 100 x)

/-! ## Dataset aggregation (`generateSummary`, lines 481-570) -/

/-- The per-decision counters of the summary (`results` field, and the
per-jurisdiction entries `{ allowed, denied, flagged }`). -/
structure DecisionCounts where
  allowed : ℕ
  denied : ℕ
  flagged : ℕ
deriving DecidableEq, Repr

/-- The four-bucket risk histogram `riskDistribution`, lines 484-489:
`LOW (0-25)`, `MEDIUM (26-50)`, `HIGH (51-75)`, `CRITICAL (76-100)`. -/
structure RiskDistributionCounts where
  low : ℕ
  medium : ℕ
  high : ℕ
  critical : ℕ
deriving DecidableEq, Repr

/-- The running accumulators of the `for (const result of results)` loop of
`generateSummary`, lines 491-526.  The JavaScript records
`rulesFired` and `jurisdictionBreakdown` are total maps defaulting to zero
(`rulesFired[id] || 0`; a jurisdiction key is initialised to zeros on first
touch). -/
structure SummaryAcc where
  allowed : ℕ
  denied : ℕ
  flagged : ℕ
  rulesFired : String → ℕ
  jurisdictionBreakdown : String → DecisionCounts
  riskDistribution : RiskDistributionCounts

/-- `rulesFired[rule.ruleId] = (rulesFired[rule.ruleId] || 0) + 1`, line 507. -/
def bumpRuleCount (m : String → ℕ) (id : String) : String → ℕ :=
  fun k => if k = id then m id + 1 else m k

/-- The inner loop over `result.rulesTriggered`, lines 505-509. -/
def accRulesFired (m : String → ℕ) (rules : List RuleEvaluation) : String → ℕ :=
  rules.foldl (fun m' r => if r.matched then bumpRuleCount m' r.ruleId else m') m

/-- Increment the decision counter selected by `result.decision` in a
`DecisionCounts` record (lines 498-500 for the totals and lines 515-517 for
the per-jurisdiction entry: `if ALLOW allowed++ else if DENY denied++ else
flagged++`). -/
def bumpDecision (c : DecisionCounts) (d : Decision) : DecisionCounts :=
  match d with
  | .ALLOW => { c with allowed := c.allowed + 1 }
  | .DENY => { c with denied := c.denied + 1 }
  | .ALLOW_WITH_FLAGS => { c with flagged := c.flagged + 1 }

/-- The jurisdiction-breakdown update of lines 512-517. -/
def bumpJurisdiction (jb : String → DecisionCounts) (j : String) (d : Decision) :
    String → DecisionCounts :=
  fun k => if k = j then bumpDecision (jb j) d else jb k

/-- The risk-distribution update of lines 520-525; an undefined
`riskScore` is skipped. -/
def bumpRiskDistribution (rd : RiskDistributionCounts) (score : Option ℚ) :
    RiskDistributionCounts :=
  match score with
  | some v =>
      if v ≤ 25 then { rd with low := rd.low + 1 }
      else if v ≤ 50 then { rd with medium := rd.medium + 1 }
      else if v ≤ 75 then { rd with high := rd.high + 1 }
      else { rd with critical := rd.critical + 1 }
  | none => rd

/-- One iteration of the loop of lines 496-526 (the processing-time total
is wall-clock bookkeeping and omitted). -/
def accumulateResult (acc : SummaryAcc) (r : LoanSimulationResult) : SummaryAcc :=
  { allowed := (bumpDecision ⟨acc.allowed, acc.denied, acc.flagged⟩ r.decision).allowed
    denied := (bumpDecision ⟨acc.allowed, acc.denied, acc.flagged⟩ r.decision).denied
    flagged := (bumpDecision ⟨acc.allowed, acc.denied, acc.flagged⟩ r.decision).flagged
    rulesFired := accRulesFired acc.rulesFired r.rulesTriggered
    jurisdictionBreakdown := bumpJurisdiction acc.jurisdictionBreakdown r.jurisdiction r.decision
    riskDistribution := bumpRiskDistribution acc.riskDistribution r.riskScore }

/-- The zero state the loop starts from, lines 482-494. -/
def initSummaryAcc : SummaryAcc :=
  { allowed := 0, denied := 0, flagged := 0
    rulesFired := fun _ => 0
    jurisdictionBreakdown := fun _ => ⟨0, 0, 0⟩
    riskDistribution := ⟨0, 0, 0, 0⟩ }

/-- The static `ruleCategories` table, lines 529-539. -/
def ruleCategories : List (String × List String) :=
  [("APR Caps", ["loans-ca-apr-cap", "loans-ny-apr-cap", "loans-tx-apr-cap", "loans-ct-apr-cap", "loans-ar-apr-cap"]),
   ("Credit Score", ["loans-deep-subprime-denial", "loans-subprime-flag", "loans-near-prime-flag"]),
   ("DTI", ["loans-high-dti-denial", "loans-qm-dti-flag"]),
   ("Delinquency", ["loans-repeat-delinquent-denial", "loans-recent-delinquency-flag", "loans-multiple-delinquencies"]),
   ("Shadow Risk", ["loans-shadow-apr-risk", "loans-shadow-dti-risk", "loans-shadow-credit-risk"]),
   ("High Risk", ["loans-high-risk-combo", "loans-predatory-pattern"]),
   ("First-Time", ["loans-first-time-low-credit", "loans-first-time-high-amount"]),
   ("Large Loans", ["loans-large-loan-review", "loans-jumbo-loan-review"]),
   ("Special", ["loans-mla-apr-cap", "loans-unemployed-denial", "loans-payday-scrutiny", "loans-payday-subprime-denial", "loans-student-borrower-flag"])]

/-- `ruleIds.reduce((sum, id) => sum + (rulesFired[id] || 0), 0)`, line 543. -/
def sumRuleCounts (m : String → ℕ) (ids : List String) : ℕ :=
  ids.foldl (fun sum id => sum + m id) 0

/-- The summary record, lines 96-113 (`timestamp`,
`averageProcessingTimeMs` and the `detailedResults` echo are
presentation-only and omitted; `topTriggeredRules` is a sorted projection of
`rulesFired` and not part of any claim, so it is omitted as well). -/
structure SimulationSummary where
  datasetsProcessed : List String
  totalLoans : ℕ
  results : DecisionCounts
  rulesFired : String → ℕ
  rulesByCategory : String → ℕ
  jurisdictionBreakdown : String → DecisionCounts
  riskDistribution : RiskDistributionCounts
  hiddenRisksDetected : ℕ

/-- `generateSummary`, lines 481-570. -/
def generateSummary (results : List LoanSimulationResult) (datasetsProcessed : List String) :
    SimulationSummary :=
  let acc := results.foldl accumulateResult initSummaryAcc
  { datasetsProcessed := datasetsProcessed
    totalLoans := results.length
    results := ⟨acc.allowed, acc.denied, acc.flagged⟩
    rulesFired := acc.rulesFired
    rulesByCategory := fun cat =>
      match ruleCategories.lookup cat with
      | some ids => sumRuleCounts acc.rulesFired ids
      | none => 0
    jurisdictionBreakdown := acc.jurisdictionBreakdown
    riskDistribution := acc.riskDistribution
    hiddenRisksDetected := acc.flagged + acc.denied }

/-! ## AML domain data model (`run-aml-simulations.ts`).

The scenario field types (`TransactionData`, `AccountData`, `CustomerData`)
and the constants `AML_THRESHOLDS`, `getCountryRisk`, `isStructuringAmount`
and `isRoundAmount` are imported by the script from the arka-aml plugin,
whose source is not part of this repository snapshot.  Modelled from the
spec: threshold tables and country-risk classification are configuration
data supplied to the evaluator (spec section 6), so they are kept fully
abstract here as an `AmlEnv` parameter, and every theorem about
`evaluateTransaction` is proved for an arbitrary environment. -/

/-- The country risk tiers `getCountryRisk` is compared against
(lines 121, 128, 230, 243); `LOW` stands for any other return value. -/
inductive CountryRisk where
  | SANCTIONED
  | VERY_HIGH
  | HIGH
  | MEDIUM
  | LOW
deriving DecidableEq, Repr

/-- Modelled from the spec: the `AML_THRESHOLDS` constants read by the
evaluator; their numeric values live in the arka-aml plugin outside this
repository, so they are abstract fields. -/
structure AmlThresholds where
  CTR_THRESHOLD : ℚ
  PEP_ENHANCED_THRESHOLD : ℚ
  HIGH_RISK_COUNTRY_THRESHOLD : ℚ
  HIGH_VELOCITY_COUNT_24H : ℚ

/-- Modelled from the spec: the configuration imported from the arka-aml
plugin (country risk classifier, structuring and round-amount detectors,
threshold table). -/
structure AmlEnv where
  getCountryRisk : String → CountryRisk
  isStructuringAmount : ℚ → Bool
  isRoundAmount : ℚ → Bool
  thresholds : AmlThresholds

/-- The fields of `TransactionData` read by the evaluator. -/
structure TransactionData where
  amount : ℚ
  destCountry : String
  channel : String
  isRoundAmount : Bool
deriving DecidableEq, Repr

/-- The fields of `AccountData` read by the evaluator. -/
structure AccountData where
  status : String
  kycLevel : String
deriving DecidableEq, Repr

/-- The fields of `CustomerData` read by the evaluator.  Modelled from the
spec: `typicalMonthlyVolume` is an optional historical aggregate (spec
section 4.2), absent when no data is available; the guard of line 257
treats an absent value exactly like the JavaScript comparison
`undefined > 0`, that is as a non-match. -/
structure CustomerData where
  sanctionsHits : ℚ
  watchlistHits : ℚ
  adverseMediaHits : ℚ
  riskScore : ℚ
  isPEP : Bool
  typicalMonthlyVolume : Option ℚ
  industry : String
deriving DecidableEq, Repr

/-- The `dailyStats` aggregate block of a scenario, lines 44-49. -/
structure DailyStats where
  totalAmount : ℚ
  transactionCount : ℚ
  cashAmount : ℚ
  cashCount : ℚ
deriving DecidableEq, Repr

/-- `TransactionScenario` interface, lines 37-55 (presentation-only
`description`, `note`, `expectedReason` and `patternInsight` omitted). -/
structure TransactionScenario where
  id : String
  transaction : TransactionData
  account : AccountData
  customer : CustomerData
  dailyStats : Option DailyStats
  recentTransactions : Option (List TransactionData)
  expectedDecision : Decision
  expectedFlags : Option (List String)
deriving DecidableEq, Repr

/-- AML `SimulationResult` interface, lines 63-77 (the `expected` echo of
the scenario annotation and the interpolated `riskFactors` strings are
presentation-only and omitted). -/
structure AmlSimulationResult where
  scenarioId : String
  decision : Decision
  flags : List String
  matchedRules : List String
  passed : Bool
deriving DecidableEq, Repr

/-! ## AML deny tier (`evaluateTransaction`, lines 110-165) -/

/-- Guard of the sanctioned-customer block, line 113. -/
def sanctionedCustomerCheck (s : TransactionScenario) : Bool :=
  decide (0 < s.customer.sanctionsHits)

/-- Guard of the sanctioned-country block, lines 120-121. -/
def sanctionedCountryCheck (env : AmlEnv) (s : TransactionScenario) : Bool :=
  decide (env.getCountryRisk s.transaction.destCountry = .SANCTIONED)

/-- Guard of the very-high-risk-country block, line 128. -/
def veryHighRiskCountryCheck (env : AmlEnv) (s : TransactionScenario) : Bool :=
  decide (env.getCountryRisk s.transaction.destCountry = .VERY_HIGH)

/-- Guard of the frozen-account block, line 135. -/
def frozenAccountCheck (s : TransactionScenario) : Bool :=
  decide (s.account.status = "FROZEN")

/-- Guard of the no-KYC block, line 142. -/
def noKycCheck (s : TransactionScenario) : Bool :=
  decide (s.account.kycLevel = "NONE") && decide (1000 < s.transaction.amount)

/-- `decision` equals `'DENY'` at the early return of line 149 exactly when
one of the five deny guards fired. -/
def denyCondAml (env : AmlEnv) (s : TransactionScenario) : Bool :=
  sanctionedCustomerCheck s || sanctionedCountryCheck env s || veryHighRiskCountryCheck env s ||
    frozenAccountCheck s || noKycCheck s

/-- The `matchedRules.push` calls of the deny section, in source order. -/
def amlDenyMatches (env : AmlEnv) (s : TransactionScenario) : List String :=
  guardList (sanctionedCustomerCheck s) "aml-sanctioned-customer-block" ++
  (guardList (sanctionedCountryCheck env s) "aml-sanctioned-country-block" ++
  (guardList (veryHighRiskCountryCheck env s) "aml-very-high-risk-country-block" ++
  (guardList (frozenAccountCheck s) "aml-frozen-account-block" ++
  guardList (noKycCheck s) "aml-no-kyc-block")))

/-! ## AML flag tier (`evaluateTransaction`, lines 167-308) -/

/-- Guard of the watchlist flag, line 170. -/
def watchlistCheck (s : TransactionScenario) : Bool :=
  decide (0 < s.customer.watchlistHits)

/-- Guard of the adverse-media flag, line 177. -/
def adverseMediaCheck (s : TransactionScenario) : Bool :=
  decide (0 < s.customer.adverseMediaHits)

/-- Guard of the critical-risk-customer flag, line 184. -/
def criticalRiskCheck (s : TransactionScenario) : Bool :=
  decide (80 < s.customer.riskScore)

/-- Guard of the CTR-threshold flag, line 191. -/
def ctrCheck (env : AmlEnv) (s : TransactionScenario) : Bool :=
  decide (s.transaction.channel = "CASH") &&
    decide (env.thresholds.CTR_THRESHOLD ≤ s.transaction.amount)

/-- Guard of the structuring-amount flag, line 198. -/
def structuringAmountCheck (env : AmlEnv) (s : TransactionScenario) : Bool :=
  env.isStructuringAmount s.transaction.amount && decide (s.transaction.channel = "CASH")

/-- Guard of the structuring-pattern flag, lines 205-214: the outer guard
requires a present, non-empty `recentTransactions` list, the inner one at
least two recent cash transactions in structuring range plus a structuring
current amount. -/
def structuringPatternCheck (env : AmlEnv) (s : TransactionScenario) : Bool :=
  match s.recentTransactions with
  | some rt =>
      decide (0 < rt.length) &&
        (decide (2 ≤ (rt.filter
            (fun t => decide (t.channel = "CASH") && env.isStructuringAmount t.amount)).length) &&
          env.isStructuringAmount s.transaction.amount)
  | none => false

/-- Guard of the PEP-enhanced flag, lines 217-218. -/
def pepEnhancedCheck (env : AmlEnv) (s : TransactionScenario) : Bool :=
  s.customer.isPEP && decide (env.thresholds.PEP_ENHANCED_THRESHOLD ≤ s.transaction.amount)

/-- Guard of the plain PEP flag: the `else` branch of line 222. -/
def pepAnyCheck (env : AmlEnv) (s : TransactionScenario) : Bool :=
  s.customer.isPEP && !decide (env.thresholds.PEP_ENHANCED_THRESHOLD ≤ s.transaction.amount)

/-- Guard of the FATF-grey-list flag for high-risk countries, line 230. -/
def fatfHighCheck (env : AmlEnv) (s : TransactionScenario) : Bool :=
  decide (env.getCountryRisk s.transaction.destCountry = .HIGH)

/-- Guard of the high-risk-country-amount flag, nested at line 235. -/
def highRiskAmountCheck (env : AmlEnv) (s : TransactionScenario) : Bool :=
  decide (env.getCountryRisk s.transaction.destCountry = .HIGH) &&
    decide (env.thresholds.HIGH_RISK_COUNTRY_THRESHOLD ≤ s.transaction.amount)

/-- Guard of the offshore-centre flag (same flag string as the grey list
rule, different rule id), line 243. -/
def fatfMediumCheck (env : AmlEnv) (s : TransactionScenario) : Bool :=
  decide (env.getCountryRisk s.transaction.destCountry = .MEDIUM)

/-- Guard of the high-velocity flag, line 250; an absent `dailyStats` block
is a non-match. -/
def velocityCheck (env : AmlEnv) (s : TransactionScenario) : Bool :=
  match s.dailyStats with
  | some d => decide (env.thresholds.HIGH_VELOCITY_COUNT_24H < d.transactionCount)
  | none => false

/-- Guard of the unusual-amount flag, lines 257-259; an absent
`typicalMonthlyVolume` is a non-match, like `undefined > 0`. -/
def unusualAmountCheck (s : TransactionScenario) : Bool :=
  match s.customer.typicalMonthlyVolume with
  | some v => decide (0 < v) && decide (5 ≤ s.transaction.amount / v)
  | none => false

/-- Guard of the round-amount flag, line 267. -/
def roundAmountCheck (env : AmlEnv) (s : TransactionScenario) : Bool :=
  (s.transaction.isRoundAmount || env.isRoundAmount s.transaction.amount) &&
    decide (5000 ≤ s.transaction.amount)

/-- Guard of the MSB flag, lines 274-275. -/
def msbCheck (s : TransactionScenario) : Bool :=
  decide (strToUpper s.customer.industry = "MONEY_SERVICE_BUSINESS")

/-- Guard of the crypto-business flag, line 280. -/
def cryptoCheck (s : TransactionScenario) : Bool :=
  decide (strToUpper s.customer.industry = "CRYPTOCURRENCY")

/-- Guard of the casino flag, line 285. -/
def casinoCheck (s : TransactionScenario) : Bool :=
  decide (strToUpper s.customer.industry = "CASINO_GAMBLING")

/-- Guard of the basic-KYC-high-amount flag, line 292. -/
def basicKycCheck (s : TransactionScenario) : Bool :=
  decide (s.account.kycLevel = "BASIC") && decide (10000 < s.transaction.amount)

/-- Guard of the dormant-account flag, line 299. -/
def dormantCheck (s : TransactionScenario) : Bool :=
  decide (s.account.status = "DORMANT")

/-- The `flags.push` calls of the flag section, in source order. -/
def amlFlagsList (env : AmlEnv) (s : TransactionScenario) : List String :=
  guardList (watchlistCheck s) "Watchlist Match" ++
  (guardList (adverseMediaCheck s) "Adverse Media Alert" ++
  (guardList (criticalRiskCheck s) "Critical Risk Customer" ++
  (guardList (ctrCheck env s) "CTR Filing Required" ++
  (guardList (structuringAmountCheck env s) "Structuring Amount Detection" ++
  (guardList (structuringPatternCheck env s) "Structuring Pattern Detection" ++
  (guardList (pepEnhancedCheck env s) "PEP Enhanced Threshold" ++
  (guardList (pepAnyCheck env s) "PEP Transaction" ++
  (guardList (fatfHighCheck env s) "FATF Grey List Country" ++
  (guardList (highRiskAmountCheck env s) "High-Risk Country Amount" ++
  (guardList (fatfMediumCheck env s) "FATF Grey List Country" ++
  (guardList (velocityCheck env s) "High Velocity 24H" ++
  (guardList (unusualAmountCheck s) "Unusual Amount Pattern" ++
  (guardList (roundAmountCheck env s) "Round Amount Pattern" ++
  (guardList (msbCheck s) "MSB Transaction" ++
  (guardList (cryptoCheck s) "Crypto Business Transaction" ++
  (guardList (casinoCheck s) "Casino/Gambling Transaction" ++
  (guardList (basicKycCheck s) "Basic KYC High Amount" ++
  guardList (dormantCheck s) "Dormant Account Reactivation")))))))))))))))))

/-- The `matchedRules.push` calls of the flag section, in source order. -/
def amlFlagMatches (env : AmlEnv) (s : TransactionScenario) : List String :=
  guardList (watchlistCheck s) "aml-watchlist-flag" ++
  (guardList (adverseMediaCheck s) "aml-adverse-media-flag" ++
  (guardList (criticalRiskCheck s) "aml-critical-risk-flag" ++
  (guardList (ctrCheck env s) "aml-ctr-threshold" ++
  (guardList (structuringAmountCheck env s) "aml-structuring-amount" ++
  (guardList (structuringPatternCheck env s) "aml-structuring-pattern" ++
  (guardList (pepEnhancedCheck env s) "aml-pep-enhanced" ++
  (guardList (pepAnyCheck env s) "aml-pep-any" ++
  (guardList (fatfHighCheck env s) "aml-fatf-greylist" ++
  (guardList (highRiskAmountCheck env s) "aml-high-risk-country-amount" ++
  (guardList (fatfMediumCheck env s) "aml-offshore-center" ++
  (guardList (velocityCheck env s) "aml-high-velocity-24h" ++
  (guardList (unusualAmountCheck s) "aml-unusual-amount" ++
  (guardList (roundAmountCheck env s) "aml-round-amount" ++
  (guardList (msbCheck s) "aml-msb-transaction" ++
  (guardList (cryptoCheck s) "aml-crypto-business" ++
  (guardList (casinoCheck s) "aml-casino-transaction" ++
  (guardList (basicKycCheck s) "aml-basic-kyc-high-amount" ++
  guardList (dormantCheck s) "aml-dormant-reactivation")))))))))))))))))

/-! ## The AML comparator and evaluator (`evaluateTransaction`,
lines 103-336) -/

/-- JavaScript `haystack.includes(needle)` on lists of characters. -/
def startsWithChars : List Char → List Char → Bool
  | [], _ => true
  | _ :: _, [] => false
  | a :: as, b :: bs => a == b && startsWithChars as bs

/-- Substring containment: `containsChars needle hay` is true when `needle`
occurs contiguously inside `hay`. -/
def containsChars (needle : List Char) : List Char → Bool
  | [] => needle.isEmpty
  | h :: t => startsWithChars needle (h :: t) || containsChars needle t

/-- `s.includes(sub)` of JavaScript strings. -/
def strIncludes (s sub : String) : Bool :=
  containsChars sub.toList s.toList

/-- The fuzzy flag comparison of lines 315-316:
`f.toLowerCase().includes(ef.toLowerCase()) || ef.toLowerCase().includes(f.toLowerCase())`. -/
def fuzzyMatch (f ef : String) : Bool :=
  strIncludes (strToLower f) (strToLower ef) || strIncludes (strToLower ef) (strToLower f)

/-- The decision at the end of the flag section, lines 306-308. -/
def amlFlagDecision (env : AmlEnv) (s : TransactionScenario) : Decision :=
  if 0 < (amlFlagsList env s).length then .ALLOW_WITH_FLAGS else .ALLOW

/-- The `passed` computation of the non-deny path, lines 311-319. -/
def amlFlagPassed (env : AmlEnv) (s : TransactionScenario) : Bool :=
  let flags := amlFlagsList env s
  let passed0 := decide (amlFlagDecision env s = s.expectedDecision)
  match s.expectedFlags with
  | some efs =>
      if passed0 && decide (0 < efs.length) then
        decide (0 < (efs.filter (fun ef => flags.any (fun f => fuzzyMatch f ef))).length)
      else passed0
  | none => passed0

/-- `evaluateTransaction`, lines 103-336.  A matching deny rule leads to
the early return of lines 149-165, whose `passed` ignores the expected
flag hints; otherwise the flag section runs and `passed` additionally
requires a fuzzy flag-hint match when hints are supplied. -/
def evaluateTransaction (env : AmlEnv) (s : TransactionScenario) : AmlSimulationResult :=
  if denyCondAml env s then
    { scenarioId := s.id
      decision := .DENY
      flags := []
      matchedRules := amlDenyMatches env s
      passed := decide (Decision.DENY = s.expectedDecision) }
  else
    { scenarioId := s.id
      decision := amlFlagDecision env s
      flags := amlFlagsList env s
      matchedRules := amlFlagMatches env s
      passed := amlFlagPassed env s }

/-! ## The comparator contract stated by the spec (section 4.5).

`comparatorSpecPassed` is the spec-side statement of claim C5, written from
the words of the spec rather than from the code, for comparison with the
`passed` field the evaluator computes. -/

/-- Modelled from the spec: the secondary criterion of section 4.5 — when a
non-empty list of expected flag hints is supplied, at least one actual flag
fuzzy-matches at least one expected hint. -/
def hintSatisfied (s : TransactionScenario) (r : AmlSimulationResult) : Prop :=
  match s.expectedFlags with
  | some efs => 0 < efs.length → ∃ ef ∈ efs, ∃ f ∈ r.flags, fuzzyMatch f ef = true
  | none => True

instance (s : TransactionScenario) (r : AmlSimulationResult) : Decidable (hintSatisfied s r) := by
  unfold hintSatisfied
  cases s.expectedFlags <;> exact inferInstance

/-- Modelled from the spec: claim C5 — `passed` is true exactly when the
actual decision equals the expected one and the secondary flag-hint
criterion holds. -/
def comparatorSpecPassed (s : TransactionScenario) (r : AmlSimulationResult) : Prop :=
  r.passed = true ↔ (r.decision = s.expectedDecision ∧ hintSatisfied s r)

instance (s : TransactionScenario) (r : AmlSimulationResult) :
    Decidable (comparatorSpecPassed s r) := by
  unfold comparatorSpecPassed
  exact inferInstance

/-! ## Concrete inputs used by counterexamples and witnesses -/

/-- A concrete instantiation of the abstract AML configuration, used only
to evaluate the model on concrete scenarios. -/
def testEnv : AmlEnv :=
  { getCountryRisk := fun c =>
      if c = "IR" then .SANCTIONED
      else if c = "SY" then .VERY_HIGH
      else if c = "PK" then .HIGH
      else if c = "KY" then .MEDIUM
      else .LOW
    isStructuringAmount := fun a => decide (8000 ≤ a) && decide (a < 10000)
    isRoundAmount := fun a => decide (a = 5000) || decide (a = 10000)
    thresholds :=
      { CTR_THRESHOLD := 10000
        PEP_ENHANCED_THRESHOLD := 5000
        HIGH_RISK_COUNTRY_THRESHOLD := 3000
        HIGH_VELOCITY_COUNT_24H := 10 } }

/-- A benign transaction: no rule of the catalog fires on it. -/
def benignTransaction : TransactionData :=
  { amount := 500, destCountry := "US", channel := "WIRE", isRoundAmount := false }

/-- A benign account. -/
def benignAccount : AccountData :=
  { status := "ACTIVE", kycLevel := "FULL" }

/-- A benign customer with no historical aggregates. -/
def benignCustomer : CustomerData :=
  { sanctionsHits := 0, watchlistHits := 0, adverseMediaHits := 0, riskScore := 10,
    isPEP := false, typicalMonthlyVolume := none, industry := "RETAIL" }

/-- Counterexample scenario for claim C1: both the sanctioned-customer rule
and the frozen-account rule (two deny-tier rules) match. -/
def c1Scenario : TransactionScenario :=
  { id := "c1-two-deny-matches"
    transaction := benignTransaction
    account := { benignAccount with status := "FROZEN" }
    customer := { benignCustomer with sanctionsHits := 1 }
    dailyStats := none
    recentTransactions := none
    expectedDecision := .DENY
    expectedFlags := none }

/-- Witness scenario for claims C2 and C10: exactly one deny rule
(frozen account) matches, and expected flag hints are supplied. -/
def frozenScenario : TransactionScenario :=
  { id := "frozen-account"
    transaction := benignTransaction
    account := { benignAccount with status := "FROZEN" }
    customer := benignCustomer
    dailyStats := none
    recentTransactions := none
    expectedDecision := .DENY
    expectedFlags := some ["Frozen"] }

/-- Witness scenario for claims C5 and C9: no deny rule matches, the
watchlist flag fires, aggregates are absent, and a hint matching the
watchlist flag is supplied. -/
def watchlistScenario : TransactionScenario :=
  { id := "watchlist-hit"
    transaction := benignTransaction
    account := benignAccount
    customer := { benignCustomer with watchlistHits := 2 }
    dailyStats := none
    recentTransactions := none
    expectedDecision := .ALLOW_WITH_FLAGS
    expectedFlags := some ["watchlist"] }

/-- A prime borrower no loan rule fires on. -/
def primeBorrower : BorrowerData :=
  { borrowerId := "B-1", creditScore := 720, income := 90000,
    employmentStatus := "EMPLOYED", debtToIncomeRatio := mkRat 35 100, riskBand := "PRIME",
    region := "WEST", state := "CA", isFirstTimeBorrower := false,
    previousLoanCount := 2, delinquencyHistory := "NONE",
    delinquenciesLast24Months := 0, yearsEmployed := some 6,
    hasCosigner := none, cosignerCreditScore := none }

/-- A plain lender record. -/
def plainLender : LenderData :=
  { id := "L-1", name := "First Example Bank", licenseNumber := some "LN-1",
    state := some "CA", isBank := some true }

/-- A moderate loan no rule fires on. -/
def moderateLoan : LoanData :=
  { apr := mkRat 20 100, principal := 10000, amount := none, termMonths := 36,
    purpose := "AUTO", productType := "INSTALLMENT", isSecured := true,
    isRefinance := false, originalLoanId := none }

/-- Witness application for claim C8 (and the loan half of C1 and C2): a
California loan at 45 percent APR, above the 36 percent cap. -/
def highAprApplication : LoanApplication :=
  { id := "loan-high-apr"
    jurisdiction := "US-CA"
    loan := { moderateLoan with apr := mkRat 45 100 }
    borrower := primeBorrower
    lender := plainLender
    flagsMap := { isMilitary := false } }

/-- Witness application for claim C4: two delinquencies and a high APR give
two non-zero deltas. -/
def riskyApplication : LoanApplication :=
  { id := "loan-risky"
    jurisdiction := "US-NV"
    loan := { moderateLoan with apr := mkRat 33 100 }
    borrower := { primeBorrower with creditScore := 640, delinquenciesLast24Months := 2 }
    lender := plainLender
    flagsMap := { isMilitary := false } }

/-! # Helper lemmas -/

theorem guardList_nodup {α : Type} (c : Bool) (a : α) : (guardList c a).Nodup := by
  cases c <;> simp [guardList]

theorem mem_guardList {α : Type} {x a : α} {c : Bool} :
    x ∈ guardList c a ↔ (c = true ∧ x = a) := by
  cases c <;> simp [guardList]

theorem guardList_nodup_append {α : Type} (c : Bool) (a : α) (l : List α) :
    (guardList c a ++ l).Nodup ↔ l.Nodup ∧ (c = true → a ∉ l) := by
  cases c
  · simp [guardList]
  · simp only [guardList, ite_true, List.singleton_append, List.nodup_cons]
    tauto

theorem mem_guardList_append {α : Type} {x a : α} {c : Bool} {l : List α} :
    x ∈ guardList c a ++ l ↔ (c = true ∧ x = a) ∨ x ∈ l := by
  cases c <;> simp [guardList]

theorem mem_dedupeFirstAux (y : String) :
    ∀ (l seen : List String), y ∈ dedupeFirstAux seen l ↔ (y ∈ l ∧ y ∉ seen) := by
  intro l
  induction l with
  | nil => intro seen; simp [dedupeFirstAux]
  | cons x xs ih =>
      intro seen
      by_cases hyx : y = x
      · subst hyx
        by_cases hx : y ∈ seen <;>
          · simp only [dedupeFirstAux, List.mem_cons, ih, hx, if_pos, if_neg,
              ite_true, ite_false]
            tauto
      · by_cases hx : x ∈ seen <;>
          · simp only [dedupeFirstAux, List.mem_cons, ih, hx, if_pos, if_neg,
              ite_true, ite_false]
            tauto

theorem mem_dedupeFirst {y : String} {l : List String} :
    y ∈ dedupeFirst l ↔ y ∈ l := by
  simp [dedupeFirst, mem_dedupeFirstAux]

theorem dedupeFirstAux_nodup :
    ∀ (l seen : List String), (dedupeFirstAux seen l).Nodup := by
  intro l
  induction l with
  | nil => intro seen; simp [dedupeFirstAux]
  | cons x xs ih =>
      intro seen
      by_cases hx : x ∈ seen
      · simpa [dedupeFirstAux, if_pos hx] using ih seen
      · simp only [dedupeFirstAux, if_neg hx, List.nodup_cons]
        refine ⟨fun hc => ?_, ih (x :: seen)⟩
        rcases (mem_dedupeFirstAux x xs (x :: seen)).1 hc with ⟨_, hns⟩
        exact hns (List.mem_cons_self x seen)

theorem dedupeFirst_nodup (l : List String) : (dedupeFirst l).Nodup :=
  dedupeFirstAux_nodup l []

/-! ## Projection lemmas for the two evaluators -/

theorem evaluateTransaction_flags (env : AmlEnv) (s : TransactionScenario) :
    (evaluateTransaction env s).flags =
      if denyCondAml env s then [] else amlFlagsList env s := by
  unfold evaluateTransaction
  split <;> rfl

theorem evaluateTransaction_matchedRules (env : AmlEnv) (s : TransactionScenario) :
    (evaluateTransaction env s).matchedRules =
      if denyCondAml env s then amlDenyMatches env s else amlFlagMatches env s := by
  unfold evaluateTransaction
  split <;> rfl

theorem evaluateTransaction_decision (env : AmlEnv) (s : TransactionScenario) :
    (evaluateTransaction env s).decision =
      if denyCondAml env s then .DENY else amlFlagDecision env s := by
  unfold evaluateTransaction
  split <;> rfl

theorem evaluateTransaction_passed (env : AmlEnv) (s : TransactionScenario) :
    (evaluateTransaction env s).passed =
      if denyCondAml env s then decide (Decision.DENY = s.expectedDecision)
      else amlFlagPassed env s := by
  unfold evaluateTransaction
  split <;> rfl

theorem evaluateLoanDirectly_decision (l : LoanApplication) :
    (evaluateLoanDirectly l).decision =
      if denyCondLoan l then .DENY
      else if flagCondLoan l then .ALLOW_WITH_FLAGS
      else .ALLOW := rfl

theorem evaluateLoanDirectly_flags (l : LoanApplication) :
    (evaluateLoanDirectly l).flags =
      dedupeFirst (loanDenyFlags l ++ (if denyCondLoan l then [] else loanFlagFlags l)) := rfl

theorem evaluateLoanDirectly_rulesTriggered (l : LoanApplication) :
    (evaluateLoanDirectly l).rulesTriggered =
      loanDenyMatches l ++ (if denyCondLoan l then [] else loanFlagMatches l) := rfl

theorem evaluateLoanDirectly_riskScore (l : LoanApplication) :
    (evaluateLoanDirectly l).riskScore = some (computeRiskScore l) := rfl

/-! ## Condition lemmas for the loan evaluator -/

theorem loanDenyFlags_eq_nil {l : LoanApplication} (h : denyCondLoan l = false) :
    loanDenyFlags l = [] := by
  have h1 : aprDenyCheck l = false := by
    simp only [denyCondLoan, Bool.or_eq_false_iff] at h
    exact h.1.1.1.1.1.1
  simp only [denyCondLoan, Bool.or_eq_false_iff] at h
  cases hc : aprCaps l.jurisdiction with
  | none => simp_all [loanDenyFlags, guardList]
  | some r =>
      simp only [aprDenyCheck, hc] at h1
      simp_all [loanDenyFlags, guardList]

theorem loanFlagFlags_eq_nil {l : LoanApplication} (h : flagCondLoan l = false) :
    loanFlagFlags l = [] := by
  simp only [flagCondLoan, Bool.or_eq_false_iff] at h
  simp_all [loanFlagFlags, guardList]

theorem exists_mem_loanDenyFlags {l : LoanApplication} (h : denyCondLoan l = true) :
    ∃ c, c ∈ loanDenyFlags l := by
  simp only [denyCondLoan, Bool.or_eq_true] at h
  rcases h with ((((((h | h) | h) | h) | h) | h) | h)
  · cases hc : aprCaps l.jurisdiction with
    | none => simp [aprDenyCheck, hc] at h
    | some r =>
        refine ⟨r.code, ?_⟩
        simp only [aprDenyCheck, hc] at h
        simp [loanDenyFlags, hc, h, mem_guardList_append, mem_guardList, guardList]
  · exact ⟨"DEEP_SUBPRIME_CREDIT", by
      refine List.mem_append_right _ ?_
      simp [mem_guardList_append, mem_guardList, h]⟩
  · exact ⟨"EXCESSIVE_DTI", by
      refine List.mem_append_right _ ?_
      simp [mem_guardList_append, mem_guardList, h]⟩
  · exact ⟨"SEVERE_DELINQUENCY_HISTORY", by
      refine List.mem_append_right _ ?_
      simp [mem_guardList_append, mem_guardList, h]⟩
  · exact ⟨"MLA_VIOLATION", by
      refine List.mem_append_right _ ?_
      simp [mem_guardList_append, mem_guardList, h]⟩
  · exact ⟨"UNEMPLOYED_NO_COSIGNER", by
      refine List.mem_append_right _ ?_
      simp [mem_guardList_append, mem_guardList, h]⟩
  · exact ⟨"PAYDAY_SUBPRIME_DENIAL", by
      refine List.mem_append_right _ ?_
      simp [mem_guardList_append, mem_guardList, h]⟩

/-! ## Claim C3: the risk score is clamped into the unit-hundred range -/

/-- C3: for every loan application, including arbitrarily extreme input
factors, the risk score in the result of `evaluateLoanDirectly` lies within
the interval from 0 to 100. -/
theorem risk_score_clamped (l : LoanApplication) :
    (evaluateLoanDirectly l).riskScore = some (computeRiskScore l) ∧
      0 ≤ computeRiskScore l ∧ computeRiskScore l ≤ 100 := by
  refine ⟨rfl, ?_, ?_⟩
  · exact le_max_left 0 _
  · exact max_le (by norm_num) (min_le_left 100 _)

/-! ## Claim C4: the risk score is the clamp of 50 plus the sum of the
band deltas, clamped once after the full summation -/

set_option maxHeartbeats 2000000 in
/-- C4: the risk score equals the clamp into the interval from 0 to 100 of
the base score 50 plus the sum of the four signed band deltas, with the
clamp applied exactly once after the full summation; any permutation of the
deltas sums to the same score. -/
theorem risk_score_is_clamped_delta_sum (l : LoanApplication) :
    computeRiskScore l = clampScore (50 + (riskDeltas l).sum) ∧
      (∀ p : List ℚ, p.Perm (riskDeltas l) →
        clampScore (50 + p.sum) = computeRiskScore l) := by
  have hmain : computeRiskScore l = clampScore (50 + (riskDeltas l).sum) := by
    unfold computeRiskScore clampScore riskDeltas creditScoreDelta dtiDelta
      delinquencyDelta aprDelta
    simp only [List.sum_cons, List.sum_nil]
    split_ifs <;> ring
  refine ⟨hmain, fun p hp => ?_⟩
  rw [hp.sum_eq, hmain]

/-- Witness for C4 at a concrete application together with a reordering of
its deltas. -/
theorem risk_score_is_clamped_delta_sum_witness :
    [dtiDelta riskyApplication.borrower.debtToIncomeRatio,
     creditScoreDelta riskyApplication.borrower.creditScore,
     delinquencyDelta riskyApplication.borrower.delinquenciesLast24Months,
     aprDelta riskyApplication.loan.apr].Perm
        (riskDeltas riskyApplication) ∧
      clampScore (50 + [dtiDelta riskyApplication.borrower.debtToIncomeRatio,
        creditScoreDelta riskyApplication.borrower.creditScore,
        delinquencyDelta riskyApplication.borrower.delinquenciesLast24Months,
        aprDelta riskyApplication.loan.apr].sum)
        = computeRiskScore riskyApplication :=
  ⟨List.Perm.swap _ _ _,
    (risk_score_is_clamped_delta_sum riskyApplication).2 _ (List.Perm.swap _ _ _)⟩

/-! ## Claim C8: APR above a 0.36 jurisdiction cap is denied -/

/-- C8: a loan application whose APR is 0.45 in a jurisdiction whose APR
cap is 0.36 (for example US-CA) is denied, and the jurisdiction's
APR-exceeded code appears among the flags and the triggered rules. -/
theorem apr_cap_denial (l : LoanApplication) (r : AprCapRule)
    (hj : aprCaps l.jurisdiction = some r) (hcap : r.cap = mkRat 36 100)
    (hapr : l.loan.apr = mkRat 45 100) :
    (evaluateLoanDirectly l).decision = .DENY ∧
      r.code ∈ (evaluateLoanDirectly l).flags ∧
      ∃ e ∈ (evaluateLoanDirectly l).rulesTriggered, e.code = r.code := by
  have hlt : r.cap < l.loan.apr := by
    rw [hcap, hapr]; decide
  have hchk : aprDenyCheck l = true := by
    simp [aprDenyCheck, hj, hlt]
  have hdeny : denyCondLoan l = true := by
    simp [denyCondLoan, hchk]
  refine ⟨?_, ?_, ?_⟩
  · simp [evaluateLoanDirectly_decision, hdeny]
  · rw [evaluateLoanDirectly_flags]
    refine mem_dedupeFirst.2 (List.mem_append_left _ ?_)
    unfold loanDenyFlags
    refine List.mem_append_left _ ?_
    simp [hj, hlt, guardList]
  · rw [evaluateLoanDirectly_rulesTriggered]
    refine ⟨⟨r.ruleId, r.name, true, .DENY, r.code⟩, ?_, rfl⟩
    refine List.mem_append_left _ ?_
    unfold loanDenyMatches
    refine List.mem_append_left _ ?_
    simp [hj, hlt, guardList]

/-- Witness for C8 at a concrete California loan with APR 0.45. -/
theorem apr_cap_denial_witness :
    (aprCaps highAprApplication.jurisdiction
        = some ⟨mkRat 36 100, "CA_APR_EXCEEDED", "California APR Cap", "loans-usca-apr-cap"⟩ ∧
      highAprApplication.loan.apr = mkRat 45 100) ∧
    ((evaluateLoanDirectly highAprApplication).decision = .DENY ∧
      "CA_APR_EXCEEDED" ∈ (evaluateLoanDirectly highAprApplication).flags ∧
      ∃ e ∈ (evaluateLoanDirectly highAprApplication).rulesTriggered,
        e.code = "CA_APR_EXCEEDED") :=
  ⟨⟨rfl, rfl⟩, apr_cap_denial highAprApplication _ rfl rfl rfl⟩

/-! ## Claim C2: severity monotonicity -/

/-- C2: a result with non-empty flags is never reported as plain ALLOW,
and a result in which a deny-tier rule matched is reported as DENY, in
both evaluators. -/
theorem severity_monotonic (env : AmlEnv) (s : TransactionScenario) (l : LoanApplication) :
    ((evaluateTransaction env s).flags ≠ [] → (evaluateTransaction env s).decision ≠ .ALLOW) ∧
    (denyCondAml env s = true → (evaluateTransaction env s).decision = .DENY) ∧
    ((evaluateLoanDirectly l).flags ≠ [] → (evaluateLoanDirectly l).decision ≠ .ALLOW) ∧
    (denyCondLoan l = true → (evaluateLoanDirectly l).decision = .DENY) := by
  refine ⟨?_, ?_, ?_, ?_⟩
  · intro hne
    rw [evaluateTransaction_flags] at hne
    rw [evaluateTransaction_decision]
    cases hb : denyCondAml env s
    · rw [hb] at hne
      simp only [Bool.false_eq_true, if_false] at hne ⊢
      unfold amlFlagDecision
      split
      · simp
      · next hlen =>
          exact absurd (List.eq_nil_of_length_eq_zero (by omega)) hne
    · simp
  · intro hd
    simp [evaluateTransaction_decision, hd]
  · intro hne
    rw [evaluateLoanDirectly_flags] at hne
    rw [evaluateLoanDirectly_decision]
    cases hdeny : denyCondLoan l
    · cases hflag : flagCondLoan l
      · exfalso
        apply hne
        rw [loanDenyFlags_eq_nil hdeny, hdeny]
        simp only [Bool.false_eq_true, if_false]
        rw [loanFlagFlags_eq_nil hflag]
        rfl
      · simp [hflag]
    · simp
  · intro hd
    simp [evaluateLoanDirectly_decision, hd]

/-- Witness for C2: a frozen-account scenario is denied and a high-APR
California loan is denied. -/
theorem severity_monotonic_witness :
    (denyCondAml testEnv frozenScenario = true ∧
      (evaluateTransaction testEnv frozenScenario).decision = .DENY) ∧
    (denyCondLoan highAprApplication = true ∧
      (evaluateLoanDirectly highAprApplication).decision = .DENY) :=
  ⟨⟨by decide,
      (severity_monotonic testEnv frozenScenario highAprApplication).2.1 (by decide)⟩,
    ⟨by decide,
      (severity_monotonic testEnv frozenScenario highAprApplication).2.2.2 (by decide)⟩⟩

/-! ## Claim C6: flags are deduplicated -/

/-- The flag-section flag strings are pairwise distinct except for the two
FATF rules, whose guards are mutually exclusive country-risk tiers; hence
the flag list of the flag section never contains a duplicate. -/
theorem amlFlagsList_nodup (env : AmlEnv) (s : TransactionScenario) :
    (amlFlagsList env s).Nodup := by
  cases hcr : env.getCountryRisk s.transaction.destCountry <;>
    simp [amlFlagsList, fatfHighCheck, fatfMediumCheck, highRiskAmountCheck, hcr,
      guardList_nodup_append, guardList_nodup, mem_guardList_append, mem_guardList]

/-- C6: in both evaluators the flags list of every result is free of
duplicates (set semantics). -/
theorem flags_deduplicated (env : AmlEnv) (s : TransactionScenario) (l : LoanApplication) :
    (evaluateTransaction env s).flags.Nodup ∧ (evaluateLoanDirectly l).flags.Nodup := by
  constructor
  · rw [evaluateTransaction_flags]
    split
    · exact List.nodup_nil
    · exact amlFlagsList_nodup env s
  · rw [evaluateLoanDirectly_flags]
    exact dedupeFirst_nodup _

/-! ## Claim C1: deny matches short-circuit flag evaluation -/

theorem exists_mem_amlDenyMatches {env : AmlEnv} {s : TransactionScenario}
    (h : denyCondAml env s = true) : ∃ c, c ∈ amlDenyMatches env s := by
  simp only [denyCondAml, Bool.or_eq_true] at h
  rcases h with ((((h | h) | h) | h) | h)
  · exact ⟨"aml-sanctioned-customer-block", by
      simp [amlDenyMatches, mem_guardList_append, mem_guardList, h]⟩
  · exact ⟨"aml-sanctioned-country-block", by
      simp [amlDenyMatches, mem_guardList_append, mem_guardList, h]⟩
  · exact ⟨"aml-very-high-risk-country-block", by
      simp [amlDenyMatches, mem_guardList_append, mem_guardList, h]⟩
  · exact ⟨"aml-frozen-account-block", by
      simp [amlDenyMatches, mem_guardList_append, mem_guardList, h]⟩
  · exact ⟨"aml-no-kyc-block", by
      simp [amlDenyMatches, mem_guardList_append, mem_guardList, h]⟩

/-- Counterexample for C1 as stated: in the AML evaluator a scenario on
which two deny-tier rules match (sanctioned customer and frozen account)
yields a matched-rules trail with two entries, not exactly one; and in the
loan evaluator a matching deny rule pushes its code onto `flags`, so the
flags list of a denied loan is not empty. -/
theorem deny_short_circuit_counterexample :
    (denyCondAml testEnv c1Scenario = true ∧
      (evaluateTransaction testEnv c1Scenario).matchedRules.length = 2) ∧
    (denyCondLoan highAprApplication = true ∧
      "CA_APR_EXCEEDED" ∈ (evaluateLoanDirectly highAprApplication).flags) := by
  refine ⟨⟨by decide, by decide⟩, ⟨by decide, by decide⟩⟩

/-- C1 (amended): if any deny-tier rule matches, the decision is DENY and
no flag-tier rule is evaluated, but `matchedRules` collects every matching
deny rule in catalog order, possibly more than one; the AML evaluator
returns empty flags, while the loan evaluator pushes the codes of the
matching deny rules onto `flags`. -/
theorem deny_short_circuit_amended (env : AmlEnv) (s : TransactionScenario)
    (l : LoanApplication) :
    (denyCondAml env s = true →
      (evaluateTransaction env s).decision = .DENY ∧
      (evaluateTransaction env s).flags = [] ∧
      (evaluateTransaction env s).matchedRules = amlDenyMatches env s ∧
      (evaluateTransaction env s).matchedRules ≠ []) ∧
    (denyCondLoan l = true →
      (evaluateLoanDirectly l).decision = .DENY ∧
      (evaluateLoanDirectly l).rulesTriggered = loanDenyMatches l ∧
      (evaluateLoanDirectly l).flags = dedupeFirst (loanDenyFlags l) ∧
      (evaluateLoanDirectly l).flags ≠ []) := by
  constructor
  · intro hd
    obtain ⟨c, hc⟩ := exists_mem_amlDenyMatches hd
    refine ⟨?_, ?_, ?_, ?_⟩
    · simp [evaluateTransaction_decision, hd]
    · simp [evaluateTransaction_flags, hd]
    · simp [evaluateTransaction_matchedRules, hd]
    · rw [evaluateTransaction_matchedRules]
      simp only [hd, if_true]
      exact List.ne_nil_of_mem hc
  · intro hd
    obtain ⟨c, hc⟩ := exists_mem_loanDenyFlags hd
    refine ⟨?_, ?_, ?_, ?_⟩
    · simp [evaluateLoanDirectly_decision, hd]
    · simp [evaluateLoanDirectly_rulesTriggered, hd]
    · simp [evaluateLoanDirectly_flags, hd]
    · rw [evaluateLoanDirectly_flags]
      have hmem : c ∈ dedupeFirst
          (loanDenyFlags l ++ (if denyCondLoan l then [] else loanFlagFlags l)) :=
        mem_dedupeFirst.2 (List.mem_append_left _ hc)
      exact List.ne_nil_of_mem hmem

/-- Witness for the amended C1 at the two concrete denied inputs. -/
theorem deny_short_circuit_amended_witness :
    (denyCondAml testEnv frozenScenario = true ∧
      (evaluateTransaction testEnv frozenScenario).flags = []) ∧
    (denyCondLoan highAprApplication = true ∧
      (evaluateLoanDirectly highAprApplication).flags
        = dedupeFirst (loanDenyFlags highAprApplication)) :=
  ⟨⟨by decide,
      ((deny_short_circuit_amended testEnv frozenScenario highAprApplication).1
        (by decide)).2.1⟩,
    ⟨by decide,
      ((deny_short_circuit_amended testEnv frozenScenario highAprApplication).2
        (by decide)).2.2.1⟩⟩

/-! ## Claim C9: absent aggregates never match -/

/-- C9: when the optional aggregate blocks (daily statistics, recent
transactions, typical monthly volume) are absent, every rule that depends
on them evaluates to non-match: the velocity, structuring-pattern and
unusual-amount flags are absent from the result.  (The evaluator is a total
Lean function, so absence can never raise.) -/
theorem absent_aggregates_nonmatch (env : AmlEnv) (s : TransactionScenario)
    (h1 : s.dailyStats = none) (h2 : s.recentTransactions = none)
    (h3 : s.customer.typicalMonthlyVolume = none) :
    "High Velocity 24H" ∉ (evaluateTransaction env s).flags ∧
    "Structuring Pattern Detection" ∉ (evaluateTransaction env s).flags ∧
    "Unusual Amount Pattern" ∉ (evaluateTransaction env s).flags := by
  have hv : velocityCheck env s = false := by simp [velocityCheck, h1]
  have hsp : structuringPatternCheck env s = false := by simp [structuringPatternCheck, h2]
  have hu : unusualAmountCheck s = false := by simp [unusualAmountCheck, h3]
  rw [evaluateTransaction_flags]
  cases hb : denyCondAml env s
  · simp only [Bool.false_eq_true, if_false]
    refine ⟨?_, ?_, ?_⟩ <;>
      simp [amlFlagsList, mem_guardList_append, mem_guardList, hv, hsp, hu]
  · simp

/-- Witness for C9: a scenario with a watchlist hit and no aggregate data
triggers none of the aggregate-dependent flags. -/
theorem absent_aggregates_nonmatch_witness :
    (watchlistScenario.dailyStats = none ∧
      watchlistScenario.recentTransactions = none ∧
      watchlistScenario.customer.typicalMonthlyVolume = none) ∧
    ("High Velocity 24H" ∉ (evaluateTransaction testEnv watchlistScenario).flags ∧
      "Structuring Pattern Detection" ∉ (evaluateTransaction testEnv watchlistScenario).flags ∧
      "Unusual Amount Pattern" ∉ (evaluateTransaction testEnv watchlistScenario).flags) :=
  ⟨⟨rfl, rfl, rfl⟩, absent_aggregates_nonmatch testEnv watchlistScenario rfl rfl rfl⟩

/-! ## Claim C10: the deny path ignores expected flag hints -/

/-- C10: on the deny path the comparator only checks the expected decision;
the fuzzy flag-hint criterion is never applied, whatever hints the scenario
supplies. -/
theorem deny_path_ignores_hints (env : AmlEnv) (s : TransactionScenario)
    (h : denyCondAml env s = true) :
    (evaluateTransaction env s).passed = decide (Decision.DENY = s.expectedDecision) := by
  simp [evaluateTransaction_passed, h]

/-- Witness for C10: a frozen-account scenario expecting DENY with flag
hints passes even though its flags list is empty. -/
theorem deny_path_ignores_hints_witness :
    denyCondAml testEnv frozenScenario = true ∧
      ((evaluateTransaction testEnv frozenScenario).passed
        = decide (Decision.DENY = frozenScenario.expectedDecision) ∧
      (evaluateTransaction testEnv frozenScenario).passed = true ∧
      (evaluateTransaction testEnv frozenScenario).flags = [] ∧
      frozenScenario.expectedFlags = some ["Frozen"]) :=
  ⟨by decide,
    deny_path_ignores_hints testEnv frozenScenario (by decide),
    by decide, by decide, rfl⟩

/-! ## Claim C5: the comparator contract -/

/-- Counterexample for C5 as stated: on a scenario that is denied while
expecting DENY with a supplied flag hint, `passed` is true although no
actual flag fuzzy-matches any hint (the flags list is empty), so the
spec-side comparator contract fails for this scenario. -/
theorem comparator_contract_counterexample :
    (evaluateTransaction testEnv frozenScenario).passed = true ∧
    frozenScenario.expectedFlags = some ["Frozen"] ∧
    (evaluateTransaction testEnv frozenScenario).flags = [] ∧
    decide (comparatorSpecPassed frozenScenario
      (evaluateTransaction testEnv frozenScenario)) = false := by
  refine ⟨by decide, rfl, by decide, by decide⟩

/-- C5 (amended): restricted to scenarios on which no deny-tier rule
matches, `passed` is true exactly when the actual decision equals the
expected decision and, when a non-empty list of expected flag hints is
supplied, at least one actual flag fuzzy-matches at least one hint. -/
theorem comparator_contract_nondeny (env : AmlEnv) (s : TransactionScenario)
    (h : denyCondAml env s = false) :
    comparatorSpecPassed s (evaluateTransaction env s) := by
  unfold comparatorSpecPassed hintSatisfied
  rw [evaluateTransaction_passed, evaluateTransaction_decision, evaluateTransaction_flags, h]
  simp only [Bool.false_eq_true, if_false]
  unfold amlFlagPassed
  cases hef : s.expectedFlags with
  | none => simp
  | some efs =>
      by_cases hd : amlFlagDecision env s = s.expectedDecision
      · by_cases hlen : 0 < efs.length
        · simp [hd, hlen, List.length_pos_iff_exists_mem, List.mem_filter,
            List.any_eq_true]
        · simp [hd, hlen]
      · simp [hd]

/-- Witness for the amended C5: a watchlist scenario with a matching hint
passes, in agreement with the spec-side contract. -/
theorem comparator_contract_nondeny_witness :
    denyCondAml testEnv watchlistScenario = false ∧
      comparatorSpecPassed watchlistScenario
        (evaluateTransaction testEnv watchlistScenario) :=
  ⟨by decide, comparator_contract_nondeny testEnv watchlistScenario (by decide)⟩

/-! ## Claim C7: aggregation additivity -/

theorem accRulesFired_split :
    ∀ (rules : List RuleEvaluation) (m : String → ℕ) (k : String),
      accRulesFired m rules k = m k + accRulesFired (fun _ => 0) rules k := by
  intro rules
  induction rules with
  | nil => intro m k; simp [accRulesFired]
  | cons r rs ih =>
      intro m k
      have hcons : ∀ m' : String → ℕ,
          accRulesFired m' (r :: rs)
            = accRulesFired (if r.matched then bumpRuleCount m' r.ruleId else m') rs :=
        fun _ => rfl
      rw [hcons m, hcons (fun _ => 0)]
      cases hm : r.matched
      · simpa using ih m k
      · simp only [if_true, ite_true]
        rw [ih (bumpRuleCount m r.ruleId) k, ih (bumpRuleCount (fun _ => 0) r.ruleId) k]
        unfold bumpRuleCount
        by_cases hk : k = r.ruleId <;> (simp [hk]; try omega)

theorem foldl_accumulate_counts :
    ∀ (results : List LoanSimulationResult) (a : SummaryAcc),
      (results.foldl accumulateResult a).allowed
          = a.allowed + (results.foldl accumulateResult initSummaryAcc).allowed ∧
      (results.foldl accumulateResult a).denied
          = a.denied + (results.foldl accumulateResult initSummaryAcc).denied ∧
      (results.foldl accumulateResult a).flagged
          = a.flagged + (results.foldl accumulateResult initSummaryAcc).flagged := by
  intro results
  induction results with
  | nil => intro a; simp [initSummaryAcc]
  | cons r rs ih =>
      intro a
      simp only [List.foldl_cons]
      obtain ⟨ha1, ha2, ha3⟩ := ih (accumulateResult a r)
      obtain ⟨hb1, hb2, hb3⟩ := ih (accumulateResult initSummaryAcc r)
      have hstep : (accumulateResult a r).allowed
            = a.allowed + (accumulateResult initSummaryAcc r).allowed ∧
          (accumulateResult a r).denied
            = a.denied + (accumulateResult initSummaryAcc r).denied ∧
          (accumulateResult a r).flagged
            = a.flagged + (accumulateResult initSummaryAcc r).flagged := by
        cases hr : r.decision <;>
          simp [accumulateResult, bumpDecision, initSummaryAcc, hr]
      refine ⟨?_, ?_, ?_⟩
      · rw [ha1, hb1]; omega
      · rw [ha2, hb2]; omega
      · rw [ha3, hb3]; omega

theorem foldl_accumulate_rules :
    ∀ (results : List LoanSimulationResult) (a : SummaryAcc) (k : String),
      (results.foldl accumulateResult a).rulesFired k
        = a.rulesFired k
          + (results.foldl accumulateResult initSummaryAcc).rulesFired k := by
  intro results
  induction results with
  | nil => intro a k; simp [initSummaryAcc]
  | cons r rs ih =>
      intro a k
      simp only [List.foldl_cons]
      rw [ih (accumulateResult a r) k, ih (accumulateResult initSummaryAcc r) k]
      have hstep : (accumulateResult a r).rulesFired k
          = a.rulesFired k + (accumulateResult initSummaryAcc r).rulesFired k := by
        show accRulesFired a.rulesFired r.rulesTriggered k
            = a.rulesFired k + accRulesFired (fun _ => 0) r.rulesTriggered k
        exact accRulesFired_split r.rulesTriggered a.rulesFired k
      omega

theorem foldl_accumulate_jurisdiction :
    ∀ (results : List LoanSimulationResult) (a : SummaryAcc) (j : String),
      ((results.foldl accumulateResult a).jurisdictionBreakdown j).allowed
          = (a.jurisdictionBreakdown j).allowed
            + ((results.foldl accumulateResult initSummaryAcc).jurisdictionBreakdown j).allowed ∧
      ((results.foldl accumulateResult a).jurisdictionBreakdown j).denied
          = (a.jurisdictionBreakdown j).denied
            + ((results.foldl accumulateResult initSummaryAcc).jurisdictionBreakdown j).denied ∧
      ((results.foldl accumulateResult a).jurisdictionBreakdown j).flagged
          = (a.jurisdictionBreakdown j).flagged
            + ((results.foldl accumulateResult initSummaryAcc).jurisdictionBreakdown j).flagged := by
  intro results
  induction results with
  | nil => intro a j; simp [initSummaryAcc]
  | cons r rs ih =>
      intro a j
      simp only [List.foldl_cons]
      obtain ⟨ha1, ha2, ha3⟩ := ih (accumulateResult a r) j
      obtain ⟨hb1, hb2, hb3⟩ := ih (accumulateResult initSummaryAcc r) j
      have hstep : ((accumulateResult a r).jurisdictionBreakdown j).allowed
            = (a.jurisdictionBreakdown j).allowed
              + ((accumulateResult initSummaryAcc r).jurisdictionBreakdown j).allowed ∧
          ((accumulateResult a r).jurisdictionBreakdown j).denied
            = (a.jurisdictionBreakdown j).denied
              + ((accumulateResult initSummaryAcc r).jurisdictionBreakdown j).denied ∧
          ((accumulateResult a r).jurisdictionBreakdown j).flagged
            = (a.jurisdictionBreakdown j).flagged
              + ((accumulateResult initSummaryAcc r).jurisdictionBreakdown j).flagged := by
        by_cases hj : j = r.jurisdiction <;> cases hr : r.decision <;>
          simp [accumulateResult, bumpJurisdiction, bumpDecision, initSummaryAcc, hj, hr]
      refine ⟨?_, ?_, ?_⟩
      · rw [ha1, hb1]; omega
      · rw [ha2, hb2]; omega
      · rw [ha3, hb3]; omega

theorem foldl_accumulate_risk :
    ∀ (results : List LoanSimulationResult) (a : SummaryAcc),
      (results.foldl accumulateResult a).riskDistribution.low
          = a.riskDistribution.low
            + (results.foldl accumulateResult initSummaryAcc).riskDistribution.low ∧
      (results.foldl accumulateResult a).riskDistribution.medium
          = a.riskDistribution.medium
            + (results.foldl accumulateResult initSummaryAcc).riskDistribution.medium ∧
      (results.foldl accumulateResult a).riskDistribution.high
          = a.riskDistribution.high
            + (results.foldl accumulateResult initSummaryAcc).riskDistribution.high ∧
      (results.foldl accumulateResult a).riskDistribution.critical
          = a.riskDistribution.critical
            + (results.foldl accumulateResult initSummaryAcc).riskDistribution.critical := by
  intro results
  induction results with
  | nil => intro a; simp [initSummaryAcc]
  | cons r rs ih =>
      intro a
      simp only [List.foldl_cons]
      obtain ⟨ha1, ha2, ha3, ha4⟩ := ih (accumulateResult a r)
      obtain ⟨hb1, hb2, hb3, hb4⟩ := ih (accumulateResult initSummaryAcc r)
      have hstep : (accumulateResult a r).riskDistribution.low
            = a.riskDistribution.low
              + (accumulateResult initSummaryAcc r).riskDistribution.low ∧
          (accumulateResult a r).riskDistribution.medium
            = a.riskDistribution.medium
              + (accumulateResult initSummaryAcc r).riskDistribution.medium ∧
          (accumulateResult a r).riskDistribution.high
            = a.riskDistribution.high
              + (accumulateResult initSummaryAcc r).riskDistribution.high ∧
          (accumulateResult a r).riskDistribution.critical
            = a.riskDistribution.critical
              + (accumulateResult initSummaryAcc r).riskDistribution.critical := by
        cases hs : r.riskScore with
        | none => simp [accumulateResult, bumpRiskDistribution, initSummaryAcc, hs]
        | some v =>
            simp only [accumulateResult, bumpRiskDistribution, initSummaryAcc, hs]
            split_ifs <;> simp
      refine ⟨?_, ?_, ?_, ?_⟩
      · rw [ha1, hb1]; omega
      · rw [ha2, hb2]; omega
      · rw [ha3, hb3]; omega
      · rw [ha4, hb4]; omega

theorem sumRuleCounts_foldl (m : String → ℕ) :
    ∀ (ids : List String) (n : ℕ),
      ids.foldl (fun sum id => sum + m id) n = n + sumRuleCounts m ids := by
  intro ids
  induction ids with
  | nil => intro n; simp [sumRuleCounts]
  | cons i is ih =>
      intro n
      show is.foldl (fun sum id => sum + m id) (n + m i) = n + sumRuleCounts m (i :: is)
      have h2 : sumRuleCounts m (i :: is) = is.foldl (fun sum id => sum + m id) (0 + m i) := rfl
      rw [ih (n + m i), h2, ih (0 + m i)]
      omega

theorem sumRuleCounts_pointwise_add (ids : List String) (h f g : String → ℕ)
    (hp : ∀ k, h k = f k + g k) :
    sumRuleCounts h ids = sumRuleCounts f ids + sumRuleCounts g ids := by
  induction ids with
  | nil => simp [sumRuleCounts]
  | cons i is ih =>
      have hc : ∀ m : String → ℕ, sumRuleCounts m (i :: is) = m i + sumRuleCounts m is := by
        intro m
        have h2 : sumRuleCounts m (i :: is) = is.foldl (fun sum id => sum + m id) (0 + m i) := rfl
        rw [h2, sumRuleCounts_foldl m is (0 + m i)]
        omega
      rw [hc h, hc f, hc g, ih, hp i]
      omega

theorem generateSummary_results (results : List LoanSimulationResult) (ds : List String) :
    (generateSummary results ds).results
      = ⟨(results.foldl accumulateResult initSummaryAcc).allowed,
         (results.foldl accumulateResult initSummaryAcc).denied,
         (results.foldl accumulateResult initSummaryAcc).flagged⟩ := rfl

theorem generateSummary_rulesFired (results : List LoanSimulationResult) (ds : List String) :
    (generateSummary results ds).rulesFired
      = (results.foldl accumulateResult initSummaryAcc).rulesFired := rfl

theorem generateSummary_jurisdictionBreakdown (results : List LoanSimulationResult)
    (ds : List String) :
    (generateSummary results ds).jurisdictionBreakdown
      = (results.foldl accumulateResult initSummaryAcc).jurisdictionBreakdown := rfl

theorem generateSummary_riskDistribution (results : List LoanSimulationResult)
    (ds : List String) :
    (generateSummary results ds).riskDistribution
      = (results.foldl accumulateResult initSummaryAcc).riskDistribution := rfl

theorem generateSummary_rulesByCategory (results : List LoanSimulationResult)
    (ds : List String) (c : String) :
    (generateSummary results ds).rulesByCategory c
      = match ruleCategories.lookup c with
        | some ids =>
            sumRuleCounts (results.foldl accumulateResult initSummaryAcc).rulesFired ids
        | none => 0 := rfl

/-- C7: the summary over the concatenation of two scenario-result lists
agrees with the key-wise sums of the two summaries on every additive
statistic: decision-kind counts, the per-rule frequency table, the
per-category rule counts, the per-jurisdiction breakdown and the
four-bucket risk histogram. -/
theorem summary_additive (A B : List LoanSimulationResult) (ds : List String) :
    (generateSummary (A ++ B) ds).results.allowed
        = (generateSummary A ds).results.allowed + (generateSummary B ds).results.allowed ∧
    (generateSummary (A ++ B) ds).results.denied
        = (generateSummary A ds).results.denied + (generateSummary B ds).results.denied ∧
    (generateSummary (A ++ B) ds).results.flagged
        = (generateSummary A ds).results.flagged + (generateSummary B ds).results.flagged ∧
    (∀ k, (generateSummary (A ++ B) ds).rulesFired k
        = (generateSummary A ds).rulesFired k + (generateSummary B ds).rulesFired k) ∧
    (∀ c, (generateSummary (A ++ B) ds).rulesByCategory c
        = (generateSummary A ds).rulesByCategory c
          + (generateSummary B ds).rulesByCategory c) ∧
    (∀ j, ((generateSummary (A ++ B) ds).jurisdictionBreakdown j).allowed
        = ((generateSummary A ds).jurisdictionBreakdown j).allowed
          + ((generateSummary B ds).jurisdictionBreakdown j).allowed ∧
      ((generateSummary (A ++ B) ds).jurisdictionBreakdown j).denied
        = ((generateSummary A ds).jurisdictionBreakdown j).denied
          + ((generateSummary B ds).jurisdictionBreakdown j).denied ∧
      ((generateSummary (A ++ B) ds).jurisdictionBreakdown j).flagged
        = ((generateSummary A ds).jurisdictionBreakdown j).flagged
          + ((generateSummary B ds).jurisdictionBreakdown j).flagged) ∧
    (generateSummary (A ++ B) ds).riskDistribution.low
        = (generateSummary A ds).riskDistribution.low
          + (generateSummary B ds).riskDistribution.low ∧
    (generateSummary (A ++ B) ds).riskDistribution.medium
        = (generateSummary A ds).riskDistribution.medium
          + (generateSummary B ds).riskDistribution.medium ∧
    (generateSummary (A ++ B) ds).riskDistribution.high
        = (generateSummary A ds).riskDistribution.high
          + (generateSummary B ds).riskDistribution.high ∧
    (generateSummary (A ++ B) ds).riskDistribution.critical
        = (generateSummary A ds).riskDistribution.critical
          + (generateSummary B ds).riskDistribution.critical := by
  have hfold : (A ++ B).foldl accumulateResult initSummaryAcc
      = B.foldl accumulateResult (A.foldl accumulateResult initSummaryAcc) :=
    List.foldl_append accumulateResult initSummaryAcc A B
  have hrules : ∀ k, ((A ++ B).foldl accumulateResult initSummaryAcc).rulesFired k
      = (A.foldl accumulateResult initSummaryAcc).rulesFired k
        + (B.foldl accumulateResult initSummaryAcc).rulesFired k := by
    intro k
    rw [hfold]
    exact foldl_accumulate_rules B (A.foldl accumulateResult initSummaryAcc) k
  refine ⟨?_, ?_, ?_, ?_, ?_, ?_, ?_, ?_, ?_, ?_⟩
  · simp only [generateSummary_results, hfold]
    exact (foldl_accumulate_counts B (A.foldl accumulateResult initSummaryAcc)).1
  · simp only [generateSummary_results, hfold]
    exact (foldl_accumulate_counts B (A.foldl accumulateResult initSummaryAcc)).2.1
  · simp only [generateSummary_results, hfold]
    exact (foldl_accumulate_counts B (A.foldl accumulateResult initSummaryAcc)).2.2
  · intro k
    simp only [generateSummary_rulesFired]
    exact hrules k
  · intro c
    simp only [generateSummary_rulesByCategory]
    cases hc : ruleCategories.lookup c
    · simp
    · simp only []
      exact sumRuleCounts_pointwise_add _ _ _ _ hrules
  · intro j
    simp only [generateSummary_jurisdictionBreakdown, hfold]
    exact foldl_accumulate_jurisdiction B (A.foldl accumulateResult initSummaryAcc) j
  · simp only [generateSummary_riskDistribution, hfold]
    exact (foldl_accumulate_risk B (A.foldl accumulateResult initSummaryAcc)).1
  · simp only [generateSummary_riskDistribution, hfold]
    exact (foldl_accumulate_risk B (A.foldl accumulateResult initSummaryAcc)).2.1
  · simp only [generateSummary_riskDistribution, hfold]
    exact (foldl_accumulate_risk B (A.foldl accumulateResult initSummaryAcc)).2.2.1
  · simp only [generateSummary_riskDistribution, hfold]
    exact (foldl_accumulate_risk B (A.foldl accumulateResult initSummaryAcc)).2.2.2
